import Mathlib

/-
Verification of the MIOpen solver-contract sources
(`src/src/implementations/conv_asm_5x10u2v2f1.cpp`, which contains the
fixed-shape assembly solver `ConvAsm5x10u2v2f1` and the parametrized
implicit-GEMM solver `ConvHipImplicitGemmBwdDataV1R1Xdlops`).

Shallow-embedding conventions:
* C++ `int` fields are modelled as `Int`; C++ `/` on `int` (truncation
  toward zero) is `Int.tdiv`; C++ `%` is compared only with `0`, where
  truncated and Euclidean remainder agree, so Lean's `%` is used there.
* C++ `std::size_t` arithmetic is modelled as `Nat` (machine-width
  overflow is not modelled: every property below is about the
  in-contract range of convolution shapes).
* `assert(...)` is modelled by returning `Option` values: `none` means
  the assertion fired (debug-build abort); `some r` means the function
  returned `r`.
* Opaque getters of types that are not part of the analyzed sources
  (`ConvolutionContext` accessors, stream/device queries) are modelled
  as fields of the corresponding structure.
* The compile-option strings (`comp_options`) are built from external
  helpers (`GenerateClangDefsym`, `std::to_string`, environment flags)
  that are outside the analyzed sources; they are omitted from the
  embedding, which keeps the work sizes, kernel identifiers and
  workspace size of each launch configuration.
-/

namespace miopen

/-- Convolution direction (spec §3: {Forward, BackwardData, BackwardWeights}). -/
inductive ConvDirection where
  | Forward
  | BackwardData
  | BackwardWeights
deriving DecidableEq, Repr

/-- Element datatype (spec §3: {fp32, fp16, bfp16}). -/
inductive DataType where
  | fp32
  | fp16
  | bfp16
deriving DecidableEq, Repr

/-- `ImplementationSearchParameters` as consumed by `ConvAsm5x10u2v2f1`:
one field per accessor the solver reads.  `device_name` models
`params.GetStream().GetDeviceName()`. -/
structure ImplementationSearchParameters where
  assembler_available : Bool
  device_name : String
  forward : Bool
  weights_layout : String
  pad0 : Int
  pad1 : Int
  kernel_stride0 : Int
  kernel_stride1 : Int
  kernel_size0 : Int
  kernel_size1 : Int
  n_inputs : Int
  n_outputs : Int
  in_width : Int
  in_height : Int
  in_layout : String
  batch_sz : Int
deriving Repr

/-- `ConvAsm5x10u2v2f1::IsCorrect`.  The C++ body asserts
`params.weights_layout.length() == 0`; the assertion is modelled as
`none`.  All other paths return `some` of the C++ boolean. -/
def ConvAsm5x10u2v2f1.IsCorrect (params : ImplementationSearchParameters) : Option Bool :=
  if !params.assembler_available then
    some false
  else
    let name := params.device_name
    let device_is_gfx8_9_no_xnack :=
      (name == "gfx800" || name == "gfx802" || name == "gfx803" || name == "gfx804" ||
       name == "gfx900")
    if !device_is_gfx8_9_no_xnack then
      some false
    else if !params.forward then
      some false
    else if params.weights_layout.length != 0 then
      none -- assert(params.weights_layout.length() == 0); FIXME in the source
    else
      -- Min image + padding shall be not smaller than filter matrix.
      let min_in_width := params.kernel_size0 - params.pad0 * 2
      let min_in_height := params.kernel_size1 - params.pad1 * 2
      -- These two found experimentally.
      let max_in_width : Int := 8192 - 1
      let max_in_height : Int := 131077 - 1
      some (decide (params.pad0 ≥ 0)
        && decide (params.pad0 ≤ 5)
        && decide (params.pad1 ≥ 0)
        && decide (params.pad1 ≤ 5)
        && decide (params.kernel_stride0 = 2)
        && decide (params.kernel_stride1 = 2)
        && decide (params.kernel_size0 = 10)
        && decide (params.kernel_size1 = 5)
        && decide (params.n_inputs ≥ 1)
        && decide (params.n_outputs % 16 = 0)
        && decide (params.n_outputs ≥ 1)
        && decide (params.in_width ≥ min_in_width)
        && decide (params.in_width ≤ max_in_width)
        && decide (params.in_height ≥ min_in_height)
        && decide (params.in_height ≤ max_in_height)
        && (params.in_layout == "NCHW"))

/-- `static inline int AlignUp(int val, unsigned step)`, the arithmetic
body `((val + step - 1) / step) * step`.  The C++ computes in unsigned
arithmetic after converting `val`; it is modelled on `Nat`, i.e. for the
in-contract range `val ≥ 0` without 32-bit wrap-around.  The
`assert(step > 0)` guard is modelled by `AlignUpChecked`. -/
def AlignUp (val step : Nat) : Nat :=
  (val + step - 1) / step * step

/-- `AlignUp` together with its `assert(step > 0)` guard: `none` models
the assertion firing on a non-positive step. -/
def AlignUpChecked (val step : Nat) : Option Nat :=
  if 0 < step then some (AlignUp val step) else none

/-- The local `out_w` of `ConvAsm5x10u2v2f1::PrepareForUsage`, lifted to
a top-level definition: `(inp_w + 2*pad_w + inp_u - wei_w) / inp_u` in
C++ `int` (truncating) division. -/
def outW (params : ImplementationSearchParameters) : Int :=
  (params.in_width + params.pad0 * 2 + params.kernel_stride0 - params.kernel_size0).tdiv
    params.kernel_stride0

/-- The local `out_h` of `ConvAsm5x10u2v2f1::PrepareForUsage`:
`(inp_h + 2*pad_h + inp_v - wei_h) / inp_v` in C++ `int` division. -/
def outH (params : ImplementationSearchParameters) : Int :=
  (params.in_height + params.pad1 * 2 + params.kernel_stride1 - params.kernel_size1).tdiv
    params.kernel_stride1

/-- `KernelUsageDescription` (the fields the embedding keeps: work-size
vectors and the kernel asset identifier; `comp_options` omitted, see the
header comment). -/
structure KernelUsageDescription where
  l_wk : List Int
  g_wk : List Int
  kernel_file : String
  kernel_name : String
deriving Repr

/-- `ImplementationUsageDescription`: the result of `PrepareForUsage`. -/
structure ImplementationUsageDescription where
  construction_params : List KernelUsageDescription
deriving Repr

/-- `ConvAsm5x10u2v2f1::PrepareForUsage`.  `AlignUp` receives C++ `int`
arguments converted to unsigned; the conversion is modelled by `Int.toNat`
(exact on the in-contract nonnegative range). -/
def ConvAsm5x10u2v2f1.PrepareForUsage (params : ImplementationSearchParameters) :
    ImplementationUsageDescription :=
  let out_w := outW params
  let out_h := outH params
  let construction_params : KernelUsageDescription :=
    { l_wk := [64, 8, 1]
      -- global-work = [align(out_w,64), (align(out_h,4)/4)*align(wei_k/2,8), batch_n]
      g_wk := [(AlignUp out_w.toNat 64 : Nat),
               (AlignUp out_h.toNat 4 / 4 * AlignUp (params.n_outputs.tdiv 2).toNat 8 : Nat),
               params.batch_sz]
      kernel_file := "conv5x10u2v2f1.s"
      kernel_name := "conv5x10u2v2f1" }
  { construction_params := [construction_params] }

/-- `ConvolutionContext` as consumed by
`ConvHipImplicitGemmBwdDataV1R1Xdlops`: one field per
`ConvolutionContextInterpreter` getter / capability query the solver
reads (the getters themselves are outside the analyzed sources).
`xdlops_supported` models `IsXdlopsSupport(ctx)`. -/
structure ConvolutionContext where
  direction : ConvDirection
  spatial_dims : Nat
  dataType : DataType
  group_counts : Nat
  batchN : Nat
  outputChannelK : Nat
  inputChannelC : Nat
  inputHeightHi : Nat
  inputWidthWi : Nat
  outputHeightHo : Nat
  outputWidthWo : Nat
  filterHeightY : Nat
  filterWidthX : Nat
  xdlops_supported : Bool
deriving Repr

/-- `ctx.direction.IsBackwardData()`. -/
def ConvDirection.IsBackwardData (d : ConvDirection) : Bool :=
  d == ConvDirection.BackwardData

/-- `ctx.Is2d()`. -/
def ConvolutionContext.Is2d (ctx : ConvolutionContext) : Bool :=
  ctx.spatial_dims == 2

/-- `ctx.IsFp32()`. -/
def ConvolutionContext.IsFp32 (ctx : ConvolutionContext) : Bool :=
  ctx.dataType == DataType.fp32

/-- `ctx.IsFp16()`. -/
def ConvolutionContext.IsFp16 (ctx : ConvolutionContext) : Bool :=
  ctx.dataType == DataType.fp16

/-- `ctx.IsBfp16()`. -/
def ConvolutionContext.IsBfp16 (ctx : ConvolutionContext) : Bool :=
  ctx.dataType == DataType.bfp16

/-- `IsXdlopsSupport(ctx)` (declared in `implicitgemm_util.hpp`, outside
the analyzed sources): modelled as the device-capability flag of the
context (spec §3 DeviceCapabilities: accelerated-matrix-multiply support
flag). -/
def IsXdlopsSupport (ctx : ConvolutionContext) : Bool :=
  ctx.xdlops_supported

/-- Modelled from the spec: `GetEPackLength(ctx, true)` is defined in
`implicitgemm_util.hpp`, which is not among the analyzed sources.  Spec
glossary: "Element-pack length: number of reduced-precision elements
packed per accumulator slot, datatype-dependent"; the source comment
says "channel k is divided by epack to pack 2/4 fp16/bfp16".  fp32
needs no packing (length 1); fp16 packs 4, bfp16 packs 2. -/
def GetEPackLength (ctx : ConvolutionContext) : Nat :=
  match ctx.dataType with
  | DataType.fp32 => 1
  | DataType.fp16 => 4
  | DataType.bfp16 => 2

/-- Modelled from the spec: `miopen::GetTypeSize` is outside the
analyzed sources; the spec fixes `sizeof(fp32) = 4` bytes (§8:
"workspace = N×C×Hi×Wi×4 bytes"); the reduced-precision types are
2-byte. Only the `miopenFloat` (fp32) entry is used below. -/
def GetTypeSize (t : DataType) : Nat :=
  match t with
  | DataType.fp32 => 4
  | DataType.fp16 => 2
  | DataType.bfp16 => 2

/-- `ConvHipImplicitGemmBwdDataV1R1Xdlops::GetWorkspaceSize`. -/
def ConvHipImplicitGemmBwdDataV1R1Xdlops.GetWorkspaceSize (ctx : ConvolutionContext) : Nat :=
  if ctx.IsFp32 then
    0
  else
    -- In case of fp16/bfp16, because there is no atomic add ISA,
    -- reduction via atomic add ISA is done via fp32; workspace is
    -- computed with the miopenFloat data type.
    let n := ctx.batchN
    let c := ctx.inputChannelC
    let hi := ctx.inputHeightHi
    let wi := ctx.inputWidthWi
    n * c * hi * wi * GetTypeSize DataType.fp32

/-- `ConvHipImplicitGemmBwdDataV1R1Xdlops::IsApplicable`. -/
def ConvHipImplicitGemmBwdDataV1R1Xdlops.IsApplicable (ctx : ConvolutionContext) : Bool :=
  if !ctx.direction.IsBackwardData then
    false
  else if !ctx.Is2d then
    false
  else if !(ctx.IsFp32 || ctx.IsFp16 || ctx.IsBfp16) then
    false
  else
    let n := ctx.batchN
    let k := ctx.outputChannelK / ctx.group_counts
    let c := ctx.inputChannelC / ctx.group_counts
    let y := ctx.filterHeightY
    let x := ctx.filterWidthX
    let ho := ctx.outputHeightHo
    let wo := ctx.outputWidthWo
    -- channel k is divided by epack to pack 2/4 fp16/bfp16
    if k % GetEPackLength ctx != 0 then
      false
    else
      let nonVectorizedK := k / GetEPackLength ctx
      IsXdlopsSupport ctx && ((n * ho * wo) % 128 == 0) && ((c * y * x) % 128 == 0) &&
        (nonVectorizedK % 16 == 0)

/-- The local `gemm_m` of `GetSolution`: `c * y * x` with the full
(un-grouped) input channel count. -/
def gemmM (ctx : ConvolutionContext) : Nat :=
  ctx.inputChannelC * ctx.filterHeightY * ctx.filterWidthX

/-- The local `gemm_n` of `GetSolution`: `n * ho * wo`. -/
def gemmN (ctx : ConvolutionContext) : Nat :=
  ctx.batchN * ctx.outputHeightHo * ctx.outputWidthWo

/-- The local `grid_size` of `GetSolution`:
`(gemm_m / gemm_m_per_block) * (gemm_n / gemm_n_per_block)` with both
per-block sizes fixed at 128 (integer division). -/
def gridSize (ctx : ConvolutionContext) : Nat :=
  gemmM ctx / 128 * (gemmN ctx / 128)

/-- `KernelInfo` (work sizes and kernel asset identifier kept;
`comp_options` omitted, see the header comment). -/
structure KernelInfo where
  l_wk : List Nat
  g_wk : List Nat
  kernel_file : String
  kernel_name : String
deriving Repr

/-- `ConvSolution`: the result of `GetSolution`. -/
structure ConvSolution where
  construction_params : List KernelInfo
  workspce_sz : Nat
deriving Repr

/-- `ConvHipImplicitGemmBwdDataV1R1Xdlops::GetSolution`. -/
def ConvHipImplicitGemmBwdDataV1R1Xdlops.GetSolution (ctx : ConvolutionContext) : ConvSolution :=
  let block_size : Nat := 256
  let grid_size := gridSize ctx
  let lkl_wk0 := block_size
  let lkl_wk1 : Nat := 1
  let lkl_wk2 : Nat := 1
  let gbl_wk0 := lkl_wk0 * grid_size
  let gbl_wk1 : Nat := 1
  let gbl_wk2 : Nat := 1
  let construction_parameters : KernelInfo :=
    { l_wk := [lkl_wk0, lkl_wk1, lkl_wk2]
      g_wk := [gbl_wk0, gbl_wk1, gbl_wk2]
      kernel_file :=
        if ctx.group_counts > 1 then
          "gridwise_convolution_backward_data_implicit_gemm_v1r1_xdlops_gnchw_gkcyx_gnkhw.cpp"
        else
          "gridwise_convolution_backward_data_implicit_gemm_v1r1_xdlops_nchw_kcyx_nkhw.cpp"
      kernel_name :=
        if ctx.group_counts > 1 then
          "gridwise_convolution_backward_data_implicit_gemm_v1r1_xdlops_gnchw_gkcyx_gnkhw"
        else
          "gridwise_convolution_backward_data_implicit_gemm_v1r1_xdlops_nchw_kcyx_nkhw" }
  { construction_params := [construction_parameters]
    workspce_sz := ConvHipImplicitGemmBwdDataV1R1Xdlops.GetWorkspaceSize ctx }

/-! Concrete problem/capability values used by witnesses and counterexamples. -/

/-- A problem accepted by `ConvAsm5x10u2v2f1::IsCorrect`: gfx900 with the
assembler available, forward, default weights layout, stride (2,2),
filter 10×5, 14×23 input, 32 output channels. -/
def asmParams : ImplementationSearchParameters :=
  { assembler_available := true
    device_name := "gfx900"
    forward := true
    weights_layout := ""
    pad0 := 0
    pad1 := 0
    kernel_stride0 := 2
    kernel_stride1 := 2
    kernel_size0 := 10
    kernel_size1 := 5
    n_inputs := 1
    n_outputs := 32
    in_width := 14
    in_height := 23
    in_layout := "NCHW"
    batch_sz := 7 }

/-- `asmParams` with a non-default weights layout. -/
def asmBadLayoutParams : ImplementationSearchParameters :=
  { asmParams with weights_layout := "KCHW" }

/-- A context accepted by the implicit-GEMM solver with `group_counts = 1`:
fp32 backward-data 2D, xdlops, `c·y·x = 128`, `n·ho·wo = 128`, `k = 16`. -/
def igemmGoodCtx : ConvolutionContext :=
  { direction := ConvDirection.BackwardData
    spatial_dims := 2
    dataType := DataType.fp32
    group_counts := 1
    batchN := 128
    outputChannelK := 16
    inputChannelC := 128
    inputHeightHi := 1
    inputWidthWi := 1
    outputHeightHo := 1
    outputWidthWo := 1
    filterHeightY := 1
    filterWidthX := 1
    xdlops_supported := true }

/-- A context accepted by the implicit-GEMM solver whose un-grouped
`gemm_m = c·y·x = 257` is *not* divisible by 128: `group_counts = 2`, so
applicability only checks `(257/2)·1·1 = 128`. -/
def igemmBadCtx : ConvolutionContext :=
  { igemmGoodCtx with group_counts := 2, inputChannelC := 257, outputChannelK := 32 }

/-- The fp16 workspace example of spec §8: N=8, C=3, Hi=224, Wi=224. -/
def igemmFp16Ctx : ConvolutionContext :=
  { igemmGoodCtx with
      dataType := DataType.fp16
      batchN := 8
      inputChannelC := 3
      inputHeightHi := 224
      inputWidthWi := 224 }

/-- `igemmFp16Ctx` with the identical shape but fp32 datatype. -/
def igemmFp32Ctx : ConvolutionContext :=
  { igemmFp16Ctx with dataType := DataType.fp32 }

/-! Helper lemmas shared between claims. -/

/-- A string of length 0 is the empty string. -/
lemma eq_empty_of_length_eq_zero {s : String} (h : s.length = 0) : s = "" := by
  apply String.ext
  have hd : s.data.length = 0 := h
  simpa using List.length_eq_zero.mp hd

/-- The divisibility facts recorded by a successful
`ConvHipImplicitGemmBwdDataV1R1Xdlops::IsApplicable` check. -/
lemma isApplicable_divisibility (ctx : ConvolutionContext)
    (h : ConvHipImplicitGemmBwdDataV1R1Xdlops.IsApplicable ctx = true) :
    ctx.batchN * ctx.outputHeightHo * ctx.outputWidthWo % 128 = 0 ∧
      ctx.inputChannelC / ctx.group_counts * ctx.filterHeightY * ctx.filterWidthX % 128 = 0 := by
  unfold ConvHipImplicitGemmBwdDataV1R1Xdlops.IsApplicable at h
  split_ifs at h with h1 h2 h3
  dsimp only [] at h
  split_ifs at h with h4
  simp only [Bool.and_eq_true, beq_iff_eq] at h
  exact ⟨h.1.1.2, h.1.2⟩

/-- C8: for `value ≥ 0` (all of `Nat`) and `step > 0`, `AlignUp value step`
is the least multiple of `step` that is `≥ value` (i.e. `ceil(value/step) * step`),
the `assert(step > 0)` passes, and a zero step trips the assertion
(a contract failure, not a recoverable value). -/
theorem alignup_spec (v s : Nat) (h : 0 < s) :
    (v ≤ AlignUp v s ∧ s ∣ AlignUp v s ∧ ∀ m, s ∣ m → v ≤ m → AlignUp v s ≤ m) ∧
      AlignUpChecked v s = some (AlignUp v s) ∧ ∀ w, AlignUpChecked w 0 = none := by
  refine ⟨?_, by simp [AlignUpChecked, h], fun w => by simp [AlignUpChecked]⟩
  unfold AlignUp
  cases v with
  | zero =>
    have hz : (0 + s - 1) / s * s = 0 := by
      have h0 : (0 + s - 1) / s = 0 := Nat.div_eq_of_lt (by omega)
      rw [h0]
      ring
    rw [hz]
    exact ⟨Nat.le_refl 0, dvd_zero s, fun m _ _ => Nat.zero_le m⟩
  | succ n =>
    have hq : (n + 1 + s - 1) / s = n / s + 1 := by
      have hns : n + 1 + s - 1 = n + s := by omega
      rw [hns, Nat.add_div_right _ h]
    rw [hq]
    refine ⟨?_, dvd_mul_left s (n / s + 1), ?_⟩
    · have hlt : n < (n / s + 1) * s := (Nat.div_lt_iff_lt_mul h).mp (Nat.lt_succ_self (n / s))
      omega
    · intro m hdvd hle
      obtain ⟨t, rfl⟩ := hdvd
      have hst : s * t = t * s := Nat.mul_comm s t
      have hnt : n < t * s := by omega
      have hdt : n / s < t := (Nat.div_lt_iff_lt_mul h).mpr hnt
      calc (n / s + 1) * s ≤ t * s := Nat.mul_le_mul_right s hdt
        _ = s * t := by ring

/-- Witness for C8 at `(3, 64)`, plus the spec's concrete alignment
examples. -/
theorem alignup_spec_witness :
    AlignUp 3 64 = 64 ∧ AlignUp 130 4 = 132 ∧ AlignUp 0 8 = 0 ∧
      (3 ≤ AlignUp 3 64 ∧ 64 ∣ AlignUp 3 64 ∧ ∀ m, 64 ∣ m → 3 ≤ m → AlignUp 3 64 ≤ m) ∧
      AlignUpChecked 3 64 = some (AlignUp 3 64) ∧ ∀ w, AlignUpChecked w 0 = none :=
  ⟨by decide, by decide, by decide, (alignup_spec 3 64 (by decide)).1,
    (alignup_spec 3 64 (by decide)).2.1, (alignup_spec 3 64 (by decide)).2.2⟩

/-- C9: both solvers always produce local and global work-size vectors of
exactly 3 integers, with unused dimensions padded with 1 (the assembly
solver's unused local dimension 2, and the implicit-GEMM solver's
dimensions 1 and 2 of both vectors). -/
theorem work_size_vectors_three (params : ImplementationSearchParameters)
    (ctx : ConvolutionContext) :
    ((ConvAsm5x10u2v2f1.PrepareForUsage params).construction_params.map
        fun cp => (cp.l_wk.length, cp.g_wk.length)) = [(3, 3)] ∧
      ((ConvHipImplicitGemmBwdDataV1R1Xdlops.GetSolution ctx).construction_params.map
        fun ki => (ki.l_wk.length, ki.g_wk.length)) = [(3, 3)] ∧
      ((ConvAsm5x10u2v2f1.PrepareForUsage params).construction_params.map
        fun cp => cp.l_wk.getD 2 0) = [1] ∧
      ((ConvHipImplicitGemmBwdDataV1R1Xdlops.GetSolution ctx).construction_params.map
        fun ki => (ki.l_wk.getD 1 0, ki.l_wk.getD 2 0, ki.g_wk.getD 1 0, ki.g_wk.getD 2 0)) =
        [(1, 1, 1, 1)] :=
  ⟨rfl, rfl, rfl, rfl⟩

/-- C10: the workspace-size field of the solution returned by
`ConvHipImplicitGemmBwdDataV1R1Xdlops::GetSolution` always equals
`GetWorkspaceSize` on the same context (the source assigns
`result.workspce_sz = GetWorkspaceSize(ctx)`). -/
theorem solution_workspace_consistent (ctx : ConvolutionContext) :
    (ConvHipImplicitGemmBwdDataV1R1Xdlops.GetSolution ctx).workspce_sz =
      ConvHipImplicitGemmBwdDataV1R1Xdlops.GetWorkspaceSize ctx :=
  rfl

/-- C3: `GetWorkspaceSize` returns 0 for fp32 and
`N × C × Hi × Wi × sizeof(fp32)` bytes (`sizeof(fp32) = 4`) for
fp16/bfp16. -/
theorem implicit_gemm_workspace_size (ctx : ConvolutionContext) :
    (ctx.dataType = DataType.fp32 →
        ConvHipImplicitGemmBwdDataV1R1Xdlops.GetWorkspaceSize ctx = 0) ∧
      ((ctx.dataType = DataType.fp16 ∨ ctx.dataType = DataType.bfp16) →
        ConvHipImplicitGemmBwdDataV1R1Xdlops.GetWorkspaceSize ctx =
          ctx.batchN * ctx.inputChannelC * ctx.inputHeightHi * ctx.inputWidthWi * 4) := by
  unfold ConvHipImplicitGemmBwdDataV1R1Xdlops.GetWorkspaceSize
  constructor
  · intro hfp32
    simp [ConvolutionContext.IsFp32, hfp32]
  · intro hred
    rcases hred with hfp16 | hbfp16
    · simp [ConvolutionContext.IsFp32, hfp16, GetTypeSize]
    · simp [ConvolutionContext.IsFp32, hbfp16, GetTypeSize]

/-- Witness for C3: the spec's fp16 example N=8, C=3, Hi=224, Wi=224
yields 8×3×224×224×4 = 4816896 bytes; the identical fp32 shape yields 0. -/
theorem implicit_gemm_workspace_size_witness :
    ConvHipImplicitGemmBwdDataV1R1Xdlops.GetWorkspaceSize igemmFp16Ctx = 4816896 ∧
      ConvHipImplicitGemmBwdDataV1R1Xdlops.GetWorkspaceSize igemmFp32Ctx = 0 :=
  ⟨((implicit_gemm_workspace_size igemmFp16Ctx).2 (Or.inl rfl)).trans (by decide),
    (implicit_gemm_workspace_size igemmFp32Ctx).1 rfl⟩

/-- C2: `ConvHipImplicitGemmBwdDataV1R1Xdlops::IsApplicable` returns true
iff: direction is BackwardData, the problem is 2D, the datatype is
fp32/fp16/bfp16, the device supports xdlops, `k = output_channels/groups`
is divisible by the element-pack length, `k/epack` is divisible by 16,
`N·Ho·Wo` is divisible by 128, and `(c = input_channels/groups)·Y·X` is
divisible by 128. -/
theorem implicit_gemm_is_applicable_iff (ctx : ConvolutionContext) :
    ConvHipImplicitGemmBwdDataV1R1Xdlops.IsApplicable ctx = true ↔
      (ctx.direction = ConvDirection.BackwardData ∧
        ctx.spatial_dims = 2 ∧
        (ctx.dataType = DataType.fp32 ∨ ctx.dataType = DataType.fp16 ∨
          ctx.dataType = DataType.bfp16) ∧
        ctx.xdlops_supported = true ∧
        GetEPackLength ctx ∣ ctx.outputChannelK / ctx.group_counts ∧
        16 ∣ ctx.outputChannelK / ctx.group_counts / GetEPackLength ctx ∧
        128 ∣ ctx.batchN * ctx.outputHeightHo * ctx.outputWidthWo ∧
        128 ∣ ctx.inputChannelC / ctx.group_counts * ctx.filterHeightY * ctx.filterWidthX) := by
  obtain ⟨dir, sd, dt, g, n, k, c, hi, wi, ho, wo, y, x, xd⟩ := ctx
  cases dir <;> cases dt <;> cases xd <;>
    simp [ConvHipImplicitGemmBwdDataV1R1Xdlops.IsApplicable, ConvDirection.IsBackwardData,
      ConvolutionContext.Is2d, ConvolutionContext.IsFp32, ConvolutionContext.IsFp16,
      ConvolutionContext.IsBfp16, IsXdlopsSupport, GetEPackLength,
      Nat.dvd_iff_mod_eq_zero, bne_iff_ne, and_assoc, Nat.mod_one] <;>
    intros <;> tauto

/-- C1 counterexample: a problem with a non-default weights layout
("KCHW"), with the assembler available, on the whitelisted device
gfx900, in the forward direction, on which `ConvAsm5x10u2v2f1::IsCorrect`
does *not* return `false` — it trips the
`assert(params.weights_layout.length() == 0)` (modelled as `none`). -/
theorem conv_asm_weights_layout_assert_cex :
    asmBadLayoutParams.assembler_available = true ∧
      asmBadLayoutParams.device_name = "gfx900" ∧
      asmBadLayoutParams.forward = true ∧
      asmBadLayoutParams.weights_layout ≠ "" ∧
      ConvAsm5x10u2v2f1.IsCorrect asmBadLayoutParams ≠ some false ∧
      ConvAsm5x10u2v2f1.IsCorrect asmBadLayoutParams = none := by
  refine ⟨rfl, rfl, rfl, by decide, by decide, by decide⟩

/-- C1 (amended): for every problem satisfying the earlier prerequisites
(assembler available, whitelisted device, forward direction) whose
weights layout is non-default (non-empty), `ConvAsm5x10u2v2f1::IsCorrect`
does not return a boolean at all: it fails the
`assert(params.weights_layout.length() == 0)` (modelled as `none`),
i.e. this applicability failure is signaled by an assertion, not by
`false`. -/
theorem conv_asm_weights_layout_assert (params : ImplementationSearchParameters)
    (ha : params.assembler_available = true)
    (hd : params.device_name = "gfx800" ∨ params.device_name = "gfx802" ∨
      params.device_name = "gfx803" ∨ params.device_name = "gfx804" ∨
      params.device_name = "gfx900")
    (hf : params.forward = true)
    (hw : params.weights_layout ≠ "") :
    ConvAsm5x10u2v2f1.IsCorrect params = none := by
  have hlen : params.weights_layout.length ≠ 0 := fun h0 =>
    hw (eq_empty_of_length_eq_zero h0)
  rcases hd with h | h | h | h | h <;>
    simp [ConvAsm5x10u2v2f1.IsCorrect, ha, hf, h, hlen, bne_iff_ne]

/-- Witness for C1's amended theorem at the concrete counterexample
problem. -/
theorem conv_asm_weights_layout_assert_witness :
    ConvAsm5x10u2v2f1.IsCorrect asmBadLayoutParams = none :=
  conv_asm_weights_layout_assert asmBadLayoutParams rfl
    (Or.inr (Or.inr (Or.inr (Or.inr rfl)))) rfl (by decide)

/-- Helper: the applicability test of the assembly solver, under its
prerequisites, characterized as a conjunction of shape constraints.
Shared by several claims below. -/
lemma isCorrect_true_iff_aux (params : ImplementationSearchParameters)
    (hw : params.weights_layout = "")
    (hd : params.device_name = "gfx800" ∨ params.device_name = "gfx802" ∨
      params.device_name = "gfx803" ∨ params.device_name = "gfx804" ∨
      params.device_name = "gfx900")
    (ha : params.assembler_available = true)
    (hf : params.forward = true) :
    ConvAsm5x10u2v2f1.IsCorrect params = some true ↔
      (0 ≤ params.pad0 ∧ params.pad0 ≤ 5 ∧ 0 ≤ params.pad1 ∧ params.pad1 ≤ 5 ∧
        params.kernel_stride0 = 2 ∧ params.kernel_stride1 = 2 ∧
        params.kernel_size0 = 10 ∧ params.kernel_size1 = 5 ∧
        1 ≤ params.n_inputs ∧
        1 ≤ params.n_outputs ∧ (16 : Int) ∣ params.n_outputs ∧
        params.kernel_size0 - 2 * params.pad0 ≤ params.in_width ∧ params.in_width ≤ 8191 ∧
        params.kernel_size1 - 2 * params.pad1 ≤ params.in_height ∧
        params.in_height ≤ 131076 ∧
        params.in_layout = "NCHW") := by
  rcases hd with h | h | h | h | h <;>
  · simp only [ConvAsm5x10u2v2f1.IsCorrect, ha, hf, hw, h]
    norm_num
    simp only [mul_comm]
    tauto

/-- Helper: a successful applicability test implies the prerequisite
conditions (assembler, whitelisted device, forward direction, default
weights layout) all held. -/
lemma isCorrect_true_prereqs (params : ImplementationSearchParameters)
    (h : ConvAsm5x10u2v2f1.IsCorrect params = some true) :
    params.assembler_available = true ∧
      (params.device_name = "gfx800" ∨ params.device_name = "gfx802" ∨
        params.device_name = "gfx803" ∨ params.device_name = "gfx804" ∨
        params.device_name = "gfx900") ∧
      params.forward = true ∧ params.weights_layout = "" := by
  unfold ConvAsm5x10u2v2f1.IsCorrect at h
  dsimp only [] at h
  split_ifs at h with h1 h2 h3 h4 <;> simp at h
  refine ⟨by revert h1; simp, ?_, by revert h3; simp, eq_empty_of_length_eq_zero (by revert h4; simp)⟩
  revert h2
  simp only [Bool.not_eq_true, Bool.not_eq_false', Bool.or_eq_true, beq_iff_eq]
  tauto

/-- C5: with the prerequisites satisfied (default weights layout,
whitelisted device, assembler available, forward direction),
`ConvAsm5x10u2v2f1::IsCorrect` returns true iff each padding is in
[0,5], the stride is exactly (2,2), the filter is exactly 10 wide by 5
high, input channels ≥ 1, output channels ≥ 1 and divisible by 16, the
input width lies in [filter_width − 2·pad_w, 8191], the input height
lies in [filter_height − 2·pad_h, 131076], and the input layout is
exactly NCHW. -/
theorem conv_asm_is_correct_iff (params : ImplementationSearchParameters)
    (hw : params.weights_layout = "")
    (hd : params.device_name = "gfx800" ∨ params.device_name = "gfx802" ∨
      params.device_name = "gfx803" ∨ params.device_name = "gfx804" ∨
      params.device_name = "gfx900")
    (ha : params.assembler_available = true)
    (hf : params.forward = true) :
    ConvAsm5x10u2v2f1.IsCorrect params = some true ↔
      (0 ≤ params.pad0 ∧ params.pad0 ≤ 5 ∧ 0 ≤ params.pad1 ∧ params.pad1 ≤ 5 ∧
        params.kernel_stride0 = 2 ∧ params.kernel_stride1 = 2 ∧
        params.kernel_size0 = 10 ∧ params.kernel_size1 = 5 ∧
        1 ≤ params.n_inputs ∧
        1 ≤ params.n_outputs ∧ (16 : Int) ∣ params.n_outputs ∧
        params.kernel_size0 - 2 * params.pad0 ≤ params.in_width ∧ params.in_width ≤ 8191 ∧
        params.kernel_size1 - 2 * params.pad1 ≤ params.in_height ∧
        params.in_height ≤ 131076 ∧
        params.in_layout = "NCHW") :=
  isCorrect_true_iff_aux params hw hd ha hf

/-- Witness for C5 at `asmParams` (14×23 input, 32 output channels):
both sides of the equivalence hold. -/
theorem conv_asm_is_correct_iff_witness :
    ConvAsm5x10u2v2f1.IsCorrect asmParams = some true :=
  (conv_asm_is_correct_iff asmParams rfl (Or.inr (Or.inr (Or.inr (Or.inr rfl)))) rfl
    rfl).mpr (by decide)

/-- C7: for every problem within the solver's applicability contract,
the output sizes computed by `PrepareForUsage` equal
`(in + 2·pad − (kernel − stride)) / stride` with floor division,
independently per axis. -/
theorem conv_asm_output_size (params : ImplementationSearchParameters)
    (h : ConvAsm5x10u2v2f1.IsCorrect params = some true) :
    outW params =
      Int.fdiv (params.in_width + 2 * params.pad0 -
        (params.kernel_size0 - params.kernel_stride0)) params.kernel_stride0 ∧
    outH params =
      Int.fdiv (params.in_height + 2 * params.pad1 -
        (params.kernel_size1 - params.kernel_stride1)) params.kernel_stride1 := by
  obtain ⟨ha, hd, hf, hw⟩ := isCorrect_true_prereqs params h
  obtain ⟨p00, p05, p10, p15, s0, s1, k0, k1, ni, no1, no16, wmin, wmax, hmin, hmax, lay⟩ :=
    (isCorrect_true_iff_aux params hw hd ha hf).mp h
  constructor
  · unfold outW
    rw [s0, k0]
    have hnum : params.in_width + params.pad0 * 2 + 2 - 10 =
        params.in_width + 2 * params.pad0 - (10 - 2) := by ring
    rw [hnum]
    have hpos : (0 : Int) ≤ params.in_width + 2 * params.pad0 - (10 - 2) := by omega
    rw [Int.tdiv_eq_ediv hpos (by norm_num), Int.fdiv_eq_ediv _ (by norm_num)]
  · unfold outH
    rw [s1, k1]
    have hnum : params.in_height + params.pad1 * 2 + 2 - 5 =
        params.in_height + 2 * params.pad1 - (5 - 2) := by ring
    rw [hnum]
    have hpos : (0 : Int) ≤ params.in_height + 2 * params.pad1 - (5 - 2) := by omega
    rw [Int.tdiv_eq_ediv hpos (by norm_num), Int.fdiv_eq_ediv _ (by norm_num)]

/-- Witness for C7 at `asmParams` (in_width = 14, pad = 0, stride = 2,
kernel = 10): the floor-division formula holds and gives `out_w = 3`. -/
theorem conv_asm_output_size_witness :
    (outW asmParams =
      Int.fdiv (asmParams.in_width + 2 * asmParams.pad0 -
        (asmParams.kernel_size0 - asmParams.kernel_stride0)) asmParams.kernel_stride0 ∧
    outH asmParams =
      Int.fdiv (asmParams.in_height + 2 * asmParams.pad1 -
        (asmParams.kernel_size1 - asmParams.kernel_stride1)) asmParams.kernel_stride1) ∧
    outW asmParams = 3 :=
  ⟨conv_asm_output_size asmParams (by decide), by decide⟩

/-- C6: for every problem within the solver's applicability contract,
`PrepareForUsage` emits local work size (64, 8, 1) and global work size
(AlignUp(out_w, 64), AlignUp(out_h, 4)/4 × AlignUp(n_outputs/2, 8),
batch size). -/
theorem conv_asm_prepare_work_sizes (params : ImplementationSearchParameters)
    (_h : ConvAsm5x10u2v2f1.IsCorrect params = some true) :
    ((ConvAsm5x10u2v2f1.PrepareForUsage params).construction_params.map
        fun cp => cp.l_wk) = [[64, 8, 1]] ∧
      ((ConvAsm5x10u2v2f1.PrepareForUsage params).construction_params.map
        fun cp => cp.g_wk) =
        [[(AlignUp (outW params).toNat 64 : Int),
          ((AlignUp (outH params).toNat 4 / 4 *
            AlignUp (params.n_outputs.tdiv 2).toNat 8 : Nat) : Int),
          params.batch_sz]] :=
  ⟨rfl, rfl⟩

/-- Witness for C6 at `asmParams`: out_h = 10 with 32 output channels
gives global dimension 1 equal to AlignUp(10,4)/4 × AlignUp(16,8) = 48. -/
theorem conv_asm_prepare_work_sizes_witness :
    (((ConvAsm5x10u2v2f1.PrepareForUsage asmParams).construction_params.map
        fun cp => cp.l_wk) = [[64, 8, 1]] ∧
      ((ConvAsm5x10u2v2f1.PrepareForUsage asmParams).construction_params.map
        fun cp => cp.g_wk) =
        [[(AlignUp (outW asmParams).toNat 64 : Int),
          ((AlignUp (outH asmParams).toNat 4 / 4 *
            AlignUp (asmParams.n_outputs.tdiv 2).toNat 8 : Nat) : Int),
          asmParams.batch_sz]]) ∧
      outH asmParams = 10 ∧
      ((ConvAsm5x10u2v2f1.PrepareForUsage asmParams).construction_params.map
        fun cp => cp.g_wk.getD 1 0) = [48] :=
  ⟨conv_asm_prepare_work_sizes asmParams (by decide), by decide, by decide⟩

/-- C4 counterexample: a context accepted by `IsApplicable`
(`group_counts = 2`, 257 input channels, 1×1 filter, per-group
`c/g·y·x = 128`) whose `gemm_m = C·Y·X = 257` is *not* exactly divisible
by 128, although the claim asserts exactness of both /128 divisions
under the applicability precondition. -/
theorem implicit_gemm_grid_exactness_cex :
    ConvHipImplicitGemmBwdDataV1R1Xdlops.IsApplicable igemmBadCtx = true ∧
      gemmM igemmBadCtx % 128 ≠ 0 := by
  refine ⟨by decide, by decide⟩

/-- C4 (amended): whenever `IsApplicable` has returned true,
`GetSolution` produces local work size (256,1,1) and global work size
(256×grid_size, 1, 1) with
`grid_size = (M/128) × (N_dim/128)` (floor division), `M = C×Y×X`,
`N_dim = N×Ho×Wo`; the division of `N_dim` by 128 is exact, and the
division of `M` by 128 is exact whenever `group_counts = 1`
(applicability enforces divisibility of `(C/group_counts)×Y×X`, which
coincides with `M` only in the ungrouped case). -/
theorem implicit_gemm_solution_launch (ctx : ConvolutionContext)
    (h : ConvHipImplicitGemmBwdDataV1R1Xdlops.IsApplicable ctx = true) :
    ((ConvHipImplicitGemmBwdDataV1R1Xdlops.GetSolution ctx).construction_params.map
        fun ki => ki.l_wk) = [[256, 1, 1]] ∧
      ((ConvHipImplicitGemmBwdDataV1R1Xdlops.GetSolution ctx).construction_params.map
        fun ki => ki.g_wk) = [[256 * gridSize ctx, 1, 1]] ∧
      gridSize ctx = gemmM ctx / 128 * (gemmN ctx / 128) ∧
      gemmN ctx % 128 = 0 ∧
      (ctx.group_counts = 1 → gemmM ctx % 128 = 0) := by
  obtain ⟨hn, hc⟩ := isApplicable_divisibility ctx h
  refine ⟨rfl, rfl, rfl, hn, ?_⟩
  intro hg
  rw [hg, Nat.div_one] at hc
  exact hc

/-- Witness for C4's amended theorem at the concrete ungrouped context
`igemmGoodCtx` (C·Y·X = 128, N·Ho·Wo = 128, grid_size = 1). -/
theorem implicit_gemm_solution_launch_witness :
    ((ConvHipImplicitGemmBwdDataV1R1Xdlops.GetSolution igemmGoodCtx).construction_params.map
        fun ki => ki.l_wk) = [[256, 1, 1]] ∧
      ((ConvHipImplicitGemmBwdDataV1R1Xdlops.GetSolution igemmGoodCtx).construction_params.map
        fun ki => ki.g_wk) = [[256 * gridSize igemmGoodCtx, 1, 1]] ∧
      gridSize igemmGoodCtx = gemmM igemmGoodCtx / 128 * (gemmN igemmGoodCtx / 128) ∧
      gemmN igemmGoodCtx % 128 = 0 ∧
      (igemmGoodCtx.group_counts = 1 → gemmM igemmGoodCtx % 128 = 0) :=
  implicit_gemm_solution_launch igemmGoodCtx (by decide)

end miopen
